import Mathlib

/-!
Shallow embedding of the aries-framework-go fragment under verification:
the introduce protocol's state machine (package `introduce`) and the
didexchange connection/DID persistence layer (package `didexchange`).

Go interface dispatch over the per-state singletons is represented by a
closed enumeration `StateName` together with functions matching on it;
message sends are recorded as an explicit trace of `SendOp` values, with
the messenger modelled as a predicate deciding which sends succeed.
Runtime panics (nil dereference, index out of range) are modelled as a
distinguished error constructor.
-/

/-- The ten introduce-protocol states (`noOp`, `start`, `done`, the three
introducer states and the three introducee states, plus `abandoning`). -/
inductive StateName
  | noOp
  | start
  | done
  | arranging
  | delivering
  | confirming
  | abandoning
  | deciding
  | waiting
  | requesting
deriving DecidableEq, Repr, Fintype

/-- The `Name()` of each state, from the `stateName*` constants of the source. -/
def stateName : StateName → String
  | .noOp => "noop"
  | .start => "start"
  | .done => "done"
  | .arranging => "arranging"
  | .delivering => "delivering"
  | .confirming => "confirming"
  | .abandoning => "abandoning"
  | .deciding => "deciding"
  | .waiting => "waiting"
  | .requesting => "requesting"

/-- Transition legality `s.CanTransitionTo(next)`: each state's method from the source, which
compares `next.Name()` against the state-name string constants. -/
def canTransitionTo (s next : StateName) : Bool :=
  match s with
  | .noOp => false
  | .start =>
      stateName next = "arranging" || stateName next = "deciding" ||
      stateName next = "requesting" || stateName next = "abandoning"
  | .done => false
  | .arranging =>
      stateName next = "arranging" || stateName next = "done" ||
      stateName next = "abandoning" || stateName next = "delivering"
  | .delivering =>
      stateName next = "confirming" || stateName next = "done" ||
      stateName next = "abandoning"
  | .confirming =>
      stateName next = "done" || stateName next = "abandoning"
  | .abandoning => stateName next = "done"
  | .deciding =>
      stateName next = "waiting" || stateName next = "done" ||
      stateName next = "abandoning"
  | .waiting =>
      stateName next = "done" || stateName next = "abandoning"
  | .requesting =>
      stateName next = "deciding" || stateName next = "abandoning" ||
      stateName next = "done"

/-- The transition table as the specification states it (start ->
arranging/deciding/requesting/abandoning; arranging ->
arranging/delivering/abandoning/done; delivering ->
confirming/done/abandoning; confirming -> done/abandoning; abandoning ->
done; deciding -> waiting/done/abandoning; waiting -> done/abandoning;
requesting -> deciding/abandoning/done; done and noOp -> none). Written
from the spec's words, for comparison with `canTransitionTo`. -/
def specTransitionTable (s next : StateName) : Bool :=
  match s, next with
  | .start, .arranging | .start, .deciding | .start, .requesting
  | .start, .abandoning => true
  | .arranging, .arranging | .arranging, .delivering
  | .arranging, .abandoning | .arranging, .done => true
  | .delivering, .confirming | .delivering, .done
  | .delivering, .abandoning => true
  | .confirming, .done | .confirming, .abandoning => true
  | .abandoning, .done => true
  | .deciding, .waiting | .deciding, .done | .deciding, .abandoning => true
  | .waiting, .done | .waiting, .abandoning => true
  | .requesting, .deciding | .requesting, .abandoning
  | .requesting, .done => true
  | _, _ => false

/-- Message type of a DIDComm message. The `*MsgType` URI constants are
declared outside the given fragment; only their distinctness is used, so
they are modelled as constructors of a closed enumeration. -/
inductive MsgType
  | request
  | response
  | proposal
  | problemReport
  | ack
  | other (uri : String)
deriving DecidableEq, Repr

/-- A didexchange invitation (`didexchange.Invitation`), opaque to the
introduce state machine: only carried and forwarded, never inspected. -/
structure Invitation where
  label : String
deriving DecidableEq, Repr

/-- The `Response` payload of an inbound response message: a boolean
`Approve` field and an optional embedded invitation. -/
structure Response where
  approve : Bool
  invitation : Option Invitation := none
deriving DecidableEq, Repr

/-- An inbound DIDComm message (`service.DIDCommMsg`): its type URI, its
ID, and the result of decoding its payload as a `Response`
(`msg.Decode(&r)`), `none` when decoding fails. -/
structure Msg where
  type : MsgType
  id : String
  decodeResponse : Option Response := none
deriving DecidableEq, Repr

/-- A `Recipient` of the introduce protocol: destination (`To`, opaque, named `dest`), own DID and peer DID. -/
structure Recipient where
  dest : Option String := none
  myDID : String
  theirDID : String
deriving DecidableEq, Repr

/-- The `metaData` record: the per-exchange context threaded through one message's
processing. `skipProposal` models the result of `isSkipProposal(m)` and
`dependency` the result of `m.dependency.Invitation()` (`none` when
`m.dependency` is nil); both are computed by code outside the given
fragment (modelled from the spec: a boolean condition derived from
message content, and the invitation supplied by the dependency). -/
structure MetaData where
  msg : Msg
  threadID : String
  myDID : String
  theirDID : String
  recipients : List Recipient := []
  introduceeIndex : Nat := 0
  waitCount : Nat
  invitation : Option Invitation := none
  disapprove : Bool := false
  dependency : Option Invitation := none
  skipProposal : Bool := false
deriving DecidableEq, Repr

/-- Predicate `isSkipProposal(m)` (defined outside the given fragment; modelled
from the spec as an abstract boolean carried in the metadata). -/
def isSkipProposal (m : MetaData) : Bool :=
  m.skipProposal

/-- Modelled from the spec: `initialWaitCount`, the wait-counter value
distinguishing the first response in a two-party flow; its numeric value
is declared outside the given fragment. -/
def initialWaitCount : Nat := 2

/-- The payload of an outgoing message built inside an execute path. -/
inductive OutMsg
  | proposalMsg (dest : Option String) (threadID : String)
  | problemReportMsg
  | ackMsg (threadID : String)
  | invitationMsg (inv : Invitation)
  | responseMsg (inv : Option Invitation) (approve : Bool)
  | raw (m : Msg)
deriving DecidableEq, Repr

/-- One messenger operation, recording which API was used and with which
arguments (`Send`, `ReplyTo`, `ReplyToNested`). -/
inductive SendOp
  | send (m : OutMsg) (myDID theirDID : String)
  | replyTo (msgID : String) (m : OutMsg)
  | replyToNested (threadID : String) (m : OutMsg) (myDID theirDID : String)
deriving DecidableEq, Repr

/-- The messenger (`service.Messenger`), modelled by which send
operations it accepts: `sendOk op = true` means the operation returns a
nil error (and the message is delivered), `false` means it errors. -/
structure Messenger where
  sendOk : SendOp → Bool

/-- An error produced by an execute path: an ordinary Go error value, or
a runtime panic (nil dereference / index out of range). -/
inductive GoErr
  | err (s : String)
  | panic (s : String)
deriving DecidableEq, Repr

/-- Result of one `ExecuteInbound`/`ExecuteOutbound` call: the returned
followup state (`none` for a nil state), the returned error, and the
trace of messenger operations that succeeded during the call. -/
structure ExecResult where
  followup : Option StateName
  goError : Option GoErr
  sent : List SendOp
deriving DecidableEq, Repr

/-- Function `getApproveFromMsg(msg)`: (false, false) unless the message is a
response whose payload decodes; then (r.Approve, true). -/
def getApproveFromMsg (msg : Msg) : Bool × Bool :=
  if msg.type ≠ .response then (false, false)
  else
    match msg.decodeResponse with
    | none => (false, false)
    | some r => (r.approve, true)

/-- Method `noOp.ExecuteInbound`: always errors. -/
def noOp_ExecuteInbound (_ : Messenger) (_ : MetaData) : ExecResult :=
  ⟨none, some (.err "cannot execute no-op"), []⟩

/-- Method `noOp.ExecuteOutbound`: always errors. -/
def noOp_ExecuteOutbound (_ : Messenger) (_ : MetaData) : ExecResult :=
  ⟨none, some (.err "cannot execute no-op"), []⟩

/-- Method `start.ExecuteInbound`: always errors. -/
def start_ExecuteInbound (_ : Messenger) (_ : MetaData) : ExecResult :=
  ⟨none, some (.err "start: ExecuteInbound function is not supposed to be used"), []⟩

/-- Method `start.ExecuteOutbound`: always errors. -/
def start_ExecuteOutbound (_ : Messenger) (_ : MetaData) : ExecResult :=
  ⟨none, some (.err "start: ExecuteOutbound function is not supposed to be used"), []⟩

/-- Method `done.ExecuteInbound`: returns the noOp followup with nil error. -/
def done_ExecuteInbound (_ : Messenger) (_ : MetaData) : ExecResult :=
  ⟨some .noOp, none, []⟩

/-- Method `done.ExecuteOutbound`: always errors. -/
def done_ExecuteOutbound (_ : Messenger) (_ : MetaData) : ExecResult :=
  ⟨none, some (.err "done: ExecuteOutbound function is not supposed to be used"), []⟩

/-- Method `arranging.ExecuteInbound`: skip-proposal responses route straight
to delivering; a present disapproval routes to abandoning; otherwise a
Proposal is sent to recipient 0 or 1 according to the wait counter
(yielding noOp and the send's error). Indexing past the recipient list
is a Go panic. -/
def arranging_ExecuteInbound (mr : Messenger) (m : MetaData) : ExecResult :=
  if m.msg.type = .response && isSkipProposal m then
    ⟨some .delivering, none, []⟩
  else
    let ao := getApproveFromMsg m.msg
    if ao.2 && !ao.1 then
      ⟨some .abandoning, none, []⟩
    else
      let idx := if m.waitCount = initialWaitCount then 0 else 1
      match m.recipients.get? idx with
      | none => ⟨none, some (.panic "index out of range"), []⟩
      | some recipient =>
          let op : SendOp :=
            .send (.proposalMsg recipient.dest m.threadID)
              recipient.myDID recipient.theirDID
          if mr.sendOk op then ⟨some .noOp, none, [op]⟩
          else ⟨some .noOp, some (.err "messenger send error"), []⟩

/-- Method `arranging.ExecuteOutbound`: sends the triggering message itself;
noOp on success, error on send failure. -/
def arranging_ExecuteOutbound (mr : Messenger) (m : MetaData) : ExecResult :=
  let op : SendOp := .send (.raw m.msg) m.myDID m.theirDID
  if mr.sendOk op then ⟨some .noOp, none, [op]⟩
  else ⟨none, some (.err "arranging: Send: messenger send error"), []⟩

/-- Function `toDestIDx`: destination index is the complement of the introducee
index. -/
def toDestIDx (idx : Nat) : Nat :=
  if idx = 0 then 1 else 0

/-- Loop of `sendProblemReport`: replies a ProblemReport in the nested thread to
every recipient in order, stopping with an error at the first failed
send; returns done when all succeed. -/
def sendProblemReportLoop (mr : Messenger) (m : MetaData) :
    List Recipient → List SendOp → ExecResult
  | [], acc => ⟨some .done, none, acc⟩
  | r :: rest, acc =>
      let op : SendOp :=
        .replyToNested m.threadID .problemReportMsg r.myDID r.theirDID
      if mr.sendOk op then sendProblemReportLoop mr m rest (acc ++ [op])
      else ⟨none, some (.err "send problem-report: messenger send error"), acc⟩

/-- Function `sendProblemReport(messenger, m, recipients)`. -/
def sendProblemReport (mr : Messenger) (m : MetaData)
    (recipients : List Recipient) : ExecResult :=
  sendProblemReportLoop mr m recipients []

/-- Function `deliveringSkipInvitation`: replies the dependency's invitation to
recipient 0 in the nested thread; done on success. A nil dependency or
an empty recipient list is a Go panic. -/
def deliveringSkipInvitation (mr : Messenger) (m : MetaData)
    (recipients : List Recipient) : ExecResult :=
  match m.dependency with
  | none => ⟨none, some (.panic "nil dependency"), []⟩
  | some inv =>
      match recipients.get? 0 with
      | none => ⟨none, some (.panic "index out of range"), []⟩
      | some r0 =>
          let op : SendOp :=
            .replyToNested m.threadID (.invitationMsg inv) r0.myDID r0.theirDID
          if mr.sendOk op then ⟨some .done, none, [op]⟩
          else ⟨none, some (.err "send inbound invitation (skip): messenger send error"), []⟩

/-- Method `delivering.ExecuteInbound`: a present disapproval routes to
abandoning; a skip proposal forwards via `deliveringSkipInvitation`; a
nil invitation aborts to abandoning; otherwise the invitation is relayed
to the complementary recipient, yielding confirming on success. -/
def delivering_ExecuteInbound (mr : Messenger) (m : MetaData) : ExecResult :=
  let ao := getApproveFromMsg m.msg
  if ao.2 && !ao.1 then
    ⟨some .abandoning, none, []⟩
  else if isSkipProposal m then
    deliveringSkipInvitation mr m m.recipients
  else
    match m.invitation with
    | none => ⟨some .abandoning, none, []⟩
    | some inv =>
        match m.recipients.get? (toDestIDx m.introduceeIndex) with
        | none => ⟨none, some (.panic "index out of range"), []⟩
        | some recipient =>
            let op : SendOp :=
              .replyToNested m.threadID (.invitationMsg inv)
                recipient.myDID recipient.theirDID
            if mr.sendOk op then ⟨some .confirming, none, [op]⟩
            else ⟨none, some (.err "send inbound invitation: messenger send error"), []⟩

/-- Method `delivering.ExecuteOutbound`: always errors. -/
def delivering_ExecuteOutbound (_ : Messenger) (_ : MetaData) : ExecResult :=
  ⟨none, some (.err "delivering: ExecuteOutbound function is not supposed to be used"), []⟩

/-- Method `confirming.ExecuteInbound`: sends an Ack to the acting introducee;
done on success. -/
def confirming_ExecuteInbound (mr : Messenger) (m : MetaData) : ExecResult :=
  match m.recipients.get? m.introduceeIndex with
  | none => ⟨none, some (.panic "index out of range"), []⟩
  | some recipient =>
      let op : SendOp :=
        .send (.ackMsg m.threadID) recipient.myDID recipient.theirDID
      if mr.sendOk op then ⟨some .done, none, [op]⟩
      else ⟨none, some (.err "send ack: messenger send error"), []⟩

/-- Method `confirming.ExecuteOutbound`: always errors. -/
def confirming_ExecuteOutbound (_ : Messenger) (_ : MetaData) : ExecResult :=
  ⟨none, some (.err "confirming: ExecuteOutbound function is not supposed to be used"), []⟩

/-- Function `fillRecipient(recipients, m)`: an empty list gets one recipient
synthesized from the metadata's own/peer DID; otherwise the first
recipient's empty DID fields are back-filled. -/
def fillRecipient (recipients : List Recipient) (m : MetaData) :
    List Recipient :=
  match recipients with
  | [] => [{ myDID := m.myDID, theirDID := m.theirDID }]
  | r0 :: rest =>
      let r1 := if r0.myDID = "" then { r0 with myDID := m.myDID } else r0
      let r2 := if r1.theirDID = "" then { r1 with theirDID := m.theirDID } else r1
      r2 :: rest

/-- Method `abandoning.ExecuteInbound`: hydrates the recipient list from the
message type; a decoded disapproval at wait count 1 short-circuits to
done, at other wait counts truncates the recipients to the first (an
empty list there is a Go slice-bounds panic); then a problem report is
sent to every remaining recipient. -/
def abandoning_ExecuteInbound (mr : Messenger) (m : MetaData) : ExecResult :=
  let recipients :=
    if m.msg.type = .request then fillRecipient [] m
    else if m.msg.type = .response then fillRecipient m.recipients m
    else []
  let ao := getApproveFromMsg m.msg
  if ao.2 && !ao.1 then
    if m.waitCount = 1 then ⟨some .done, none, []⟩
    else
      match recipients with
      | [] => ⟨none, some (.panic "slice bounds out of range"), []⟩
      | r0 :: _ => sendProblemReport mr m [r0]
  else sendProblemReport mr m recipients

/-- Method `abandoning.ExecuteOutbound`: always errors. -/
def abandoning_ExecuteOutbound (_ : Messenger) (_ : MetaData) : ExecResult :=
  ⟨none, some (.err "abandoning: ExecuteOutbound function is not supposed to be used"), []⟩

/-- Method `deciding.ExecuteInbound`: replies a Response carrying the
dependency's invitation and the negation of the disapprove flag; the
followup is abandoning on disapproval, waiting otherwise, in both cases
paired with the reply's error. -/
def deciding_ExecuteInbound (mr : Messenger) (m : MetaData) : ExecResult :=
  let inv := m.dependency
  let st : StateName := if m.disapprove then .abandoning else .waiting
  let op : SendOp := .replyTo m.msg.id (.responseMsg inv (!m.disapprove))
  if mr.sendOk op then ⟨some st, none, [op]⟩
  else ⟨some st, some (.err "messenger reply error"), []⟩

/-- Method `deciding.ExecuteOutbound`: always errors. -/
def deciding_ExecuteOutbound (_ : Messenger) (_ : MetaData) : ExecResult :=
  ⟨none, some (.err "deciding: ExecuteOutbound function is not supposed to be used"), []⟩

/-- Method `waiting.ExecuteInbound`: noOp followup, nil error. -/
def waiting_ExecuteInbound (_ : Messenger) (_ : MetaData) : ExecResult :=
  ⟨some .noOp, none, []⟩

/-- Method `waiting.ExecuteOutbound`: always errors. -/
def waiting_ExecuteOutbound (_ : Messenger) (_ : MetaData) : ExecResult :=
  ⟨none, some (.err "waiting: ExecuteOutbound function is not supposed to be used"), []⟩

/-- Method `requesting.ExecuteInbound`: always errors. -/
def requesting_ExecuteInbound (_ : Messenger) (_ : MetaData) : ExecResult :=
  ⟨none, some (.err "requesting: ExecuteInbound function is not supposed to be used"), []⟩

/-- Method `requesting.ExecuteOutbound`: sends the triggering message itself;
noOp followup paired with the send's error. -/
def requesting_ExecuteOutbound (mr : Messenger) (m : MetaData) : ExecResult :=
  let op : SendOp := .send (.raw m.msg) m.myDID m.theirDID
  if mr.sendOk op then ⟨some .noOp, none, [op]⟩
  else ⟨some .noOp, some (.err "messenger send error"), []⟩

/-- Dispatch of `ExecuteInbound` over the state set. -/
def executeInbound : StateName → Messenger → MetaData → ExecResult
  | .noOp => noOp_ExecuteInbound
  | .start => start_ExecuteInbound
  | .done => done_ExecuteInbound
  | .arranging => arranging_ExecuteInbound
  | .delivering => delivering_ExecuteInbound
  | .confirming => confirming_ExecuteInbound
  | .abandoning => abandoning_ExecuteInbound
  | .deciding => deciding_ExecuteInbound
  | .waiting => waiting_ExecuteInbound
  | .requesting => requesting_ExecuteInbound

/-- Dispatch of `ExecuteOutbound` over the state set. -/
def executeOutbound : StateName → Messenger → MetaData → ExecResult
  | .noOp => noOp_ExecuteOutbound
  | .start => start_ExecuteOutbound
  | .done => done_ExecuteOutbound
  | .arranging => arranging_ExecuteOutbound
  | .delivering => delivering_ExecuteOutbound
  | .confirming => confirming_ExecuteOutbound
  | .abandoning => abandoning_ExecuteOutbound
  | .deciding => deciding_ExecuteOutbound
  | .waiting => waiting_ExecuteOutbound
  | .requesting => requesting_ExecuteOutbound

/-- Modelled from the spec: `stateNameCompleted`, the terminal
connection-exchange state name; its string value, declared outside the
given fragment, is "completed" per the specification. -/
def stateNameCompleted : String := "completed"

/-- A connection record (`connection.Record`), restricted to the fields
the persistence fragment reads. -/
structure ConnRecord where
  connState : String
  myDID : String
  theirDID : String
  recipientKeys : List String
deriving DecidableEq, Repr

/-- The underlying stores embedded in `connectionStore`
(`connection.Recorder` and `did.Store`), modelled by the error each
primitive returns for a given call (`none` = success). -/
structure ConnStore where
  saveConnectionRecordErr : ConnRecord → Option String
  saveWithMappingsErr : ConnRecord → Option String
  saveDIDByResolvingErr : String → List String → Option String

/-- Result of a persistence call: the returned error, the record-save
attempts made, and the `SaveDIDByResolving` calls made (DID paired with
the recipient keys passed). -/
structure SaveResult where
  goError : Option String
  recordSaveAttempts : List ConnRecord
  didResolutions : List (String × List String)
deriving DecidableEq, Repr

/-- Method `connectionStore.saveConnectionRecord(record)`: saves the record
(wrapping a failure), then, when the record's state is completed,
resolves and persists the peer DID from the record's recipient keys
(wrapping a failure). -/
def saveConnectionRecord (c : ConnStore) (record : ConnRecord) : SaveResult :=
  match c.saveConnectionRecordErr record with
  | some e =>
      ⟨some (" failed to save connection record : " ++ e), [record], []⟩
  | none =>
      if record.connState = stateNameCompleted then
        match c.saveDIDByResolvingErr record.theirDID record.recipientKeys with
        | some e =>
            ⟨some (" failed to save DID by resolving : " ++ e), [record],
              [(record.theirDID, record.recipientKeys)]⟩
        | none =>
            ⟨none, [record], [(record.theirDID, record.recipientKeys)]⟩
      else ⟨none, [record], []⟩

/-- Method `connectionStore.saveConnectionRecordWithMapping(record)`: saves the
record with its thread-to-connection mappings, then resolves and
persists the record's own DID when that field is non-empty. -/
def saveConnectionRecordWithMapping (c : ConnStore) (record : ConnRecord) :
    SaveResult :=
  match c.saveWithMappingsErr record with
  | some e => ⟨some e, [record], []⟩
  | none =>
      if record.myDID ≠ "" then
        match c.saveDIDByResolvingErr record.myDID [] with
        | some e => ⟨some e, [record], [(record.myDID, [])]⟩
        | none => ⟨none, [record], [(record.myDID, [])]⟩
      else ⟨none, [record], []⟩

/-- C1: for every ordered pair of introduce-protocol states (s, n),
`s.CanTransitionTo(n)` returns true exactly when the spec's transition
table lists n as a legal next state of s. -/
theorem canTransitionTo_matches_spec_table :
    ∀ s n : StateName, canTransitionTo s n = specTransitionTable s n := by
  decide

/-- Helper fact: `fillRecipient` never returns an empty list. -/
lemma fillRecipient_ne_nil (rs : List Recipient) (m : MetaData) :
    fillRecipient rs m ≠ [] := by
  cases rs <;> simp [fillRecipient]

/-- When `sendProblemReportLoop` finishes without error, its trace adds
exactly one send per recipient to the accumulator. -/
lemma sendProblemReportLoop_sent_length (mr : Messenger) (m : MetaData) :
    ∀ (rs : List Recipient) (acc : List SendOp),
      (sendProblemReportLoop mr m rs acc).goError = none →
      (sendProblemReportLoop mr m rs acc).sent.length =
        acc.length + rs.length := by
  intro rs
  induction rs with
  | nil => intro acc _; simp [sendProblemReportLoop]
  | cons r rest ih =>
      intro acc h
      by_cases hs :
          mr.sendOk (.replyToNested m.threadID .problemReportMsg r.myDID r.theirDID) = true
      · rw [sendProblemReportLoop] at h ⊢
        simp only [hs, if_true] at h ⊢
        rw [ih _ h]
        simp [Nat.add_assoc, Nat.add_comm 1 rest.length]
      · rw [sendProblemReportLoop] at h
        simp [hs] at h

/-- C8: for every messenger and every metaData input, `done.ExecuteInbound`
returns the noOp followup state with no error and performs no message send. -/
theorem done_executeInbound_noOp (mr : Messenger) (m : MetaData) :
    done_ExecuteInbound mr m = ⟨some .noOp, none, []⟩ := by
  rfl

/-- C4: for every metaData whose triggering message has type
`ResponseMsgType` and for which the skip-proposal condition holds,
`arranging.ExecuteInbound` returns the delivering state with no error and
performs no message send. -/
theorem arranging_skip_routes_to_delivering (mr : Messenger) (m : MetaData)
    (h1 : m.msg.type = .response) (h2 : isSkipProposal m = true) :
    arranging_ExecuteInbound mr m = ⟨some .delivering, none, []⟩ := by
  simp [arranging_ExecuteInbound, h1, h2]

/-- Witness for C4 at a concrete response message with the skip condition
set. -/
theorem arranging_skip_routes_to_delivering_witness :
    arranging_ExecuteInbound ⟨fun _ => true⟩
      { msg := { type := .response, id := "m1", decodeResponse := some { approve := true } },
        threadID := "t1", myDID := "d1", theirDID := "d2",
        waitCount := 2, skipProposal := true } =
      ⟨some .delivering, none, []⟩ :=
  arranging_skip_routes_to_delivering _ _ rfl rfl

/-- C10: if `delivering.ExecuteInbound` processes a message carrying no
disapproval signal, with the skip-proposal condition false and a nil
invitation, it returns the abandoning state with no error and sends no
message. -/
theorem delivering_nil_invitation_abandons (mr : Messenger) (m : MetaData)
    (h1 : ((getApproveFromMsg m.msg).2 && !(getApproveFromMsg m.msg).1) = false)
    (h2 : isSkipProposal m = false) (h3 : m.invitation = none) :
    delivering_ExecuteInbound mr m = ⟨some .abandoning, none, []⟩ := by
  simp [delivering_ExecuteInbound, h1, h2, h3]

/-- Witness for C10 at a concrete request-typed message with no
invitation. -/
theorem delivering_nil_invitation_abandons_witness :
    delivering_ExecuteInbound ⟨fun _ => true⟩
      { msg := { type := .request, id := "m2" },
        threadID := "t2", myDID := "d3", theirDID := "d4",
        waitCount := 2 } =
      ⟨some .abandoning, none, []⟩ :=
  delivering_nil_invitation_abandons _ _ rfl rfl rfl

/-- C7: `fillRecipient` on an empty list returns exactly one recipient
synthesized from the metadata's own and peer DID; on a non-empty list it
back-fills only the empty DID fields of the first recipient, never
overwriting a non-empty field and never touching later recipients. -/
theorem fillRecipient_spec (m : MetaData) (rs : List Recipient) :
    (rs = [] → fillRecipient rs m = [{ myDID := m.myDID, theirDID := m.theirDID }]) ∧
    (∀ r0 rest, rs = r0 :: rest →
      fillRecipient rs m =
        { dest := r0.dest,
          myDID := if r0.myDID = "" then m.myDID else r0.myDID,
          theirDID := if r0.theirDID = "" then m.theirDID else r0.theirDID } :: rest) := by
  constructor
  · intro h; subst h; rfl
  · intro r0 rest h; subst h
    by_cases h1 : r0.myDID = "" <;> by_cases h2 : r0.theirDID = "" <;>
      simp [fillRecipient, h1, h2]

/-- Witness for C7: synthesis from an empty list at concrete DIDs. -/
theorem fillRecipient_spec_witness :
    fillRecipient []
      { msg := { type := .request, id := "m3" },
        threadID := "t3", myDID := "did:me", theirDID := "did:peer",
        waitCount := 2 } =
      [{ myDID := "did:me", theirDID := "did:peer" }] :=
  (fillRecipient_spec _ []).1 rfl

/-- Helper fact: `sendProblemReport` without error sends one problem report per
recipient. -/
lemma sendProblemReport_sent_length (mr : Messenger) (m : MetaData)
    (recipients : List Recipient)
    (h : (sendProblemReport mr m recipients).goError = none) :
    (sendProblemReport mr m recipients).sent.length = recipients.length := by
  have hl := sendProblemReportLoop_sent_length mr m recipients [] h
  simpa [sendProblemReport] using hl

/-- C3: when `abandoning.ExecuteInbound` processes a Response whose
Approve field decodes to false, a wait count of 1 yields the done state
with zero messages sent; any other wait count sends exactly one problem
report, addressed to the first recipient of the hydrated list only, and
returns done. -/
theorem abandoning_disapproval_behavior (mr : Messenger) (m : MetaData)
    (r : Response) (h1 : m.msg.type = .response)
    (h2 : m.msg.decodeResponse = some r) (h3 : r.approve = false) :
    (m.waitCount = 1 → abandoning_ExecuteInbound mr m = ⟨some .done, none, []⟩) ∧
    (∀ r0 rest, m.waitCount ≠ 1 → fillRecipient m.recipients m = r0 :: rest →
      mr.sendOk (.replyToNested m.threadID .problemReportMsg r0.myDID r0.theirDID) = true →
      abandoning_ExecuteInbound mr m =
        ⟨some .done, none,
          [.replyToNested m.threadID .problemReportMsg r0.myDID r0.theirDID]⟩) := by
  have hao : getApproveFromMsg m.msg = (false, true) := by
    simp [getApproveFromMsg, h1, h2, h3]
  constructor
  · intro hw
    simp [abandoning_ExecuteInbound, h1, hao, hw]
  · intro r0 rest hw hfill hs
    simp [abandoning_ExecuteInbound, h1, hao, hw, hfill,
      sendProblemReport, sendProblemReportLoop, hs]

/-- Witness for C3: disapproval at wait count 1 at concrete inputs. -/
theorem abandoning_disapproval_behavior_witness :
    abandoning_ExecuteInbound ⟨fun _ => true⟩
      { msg := { type := .response, id := "m4",
                 decodeResponse := some { approve := false } },
        threadID := "t4", myDID := "d5", theirDID := "d6",
        recipients := [{ myDID := "a", theirDID := "b" }],
        waitCount := 1 } =
      ⟨some .done, none, []⟩ :=
  (abandoning_disapproval_behavior _ _ _ rfl rfl rfl).1 rfl

/-- Helper fact: `getApproveFromMsg` reports "not present" for any message that is
not a response or whose payload fails to decode. -/
lemma getApprove_not_present (msg : Msg)
    (h : msg.type ≠ .response ∨ msg.decodeResponse = none) :
    getApproveFromMsg msg = (false, false) := by
  rcases h with h | h
  · simp [getApproveFromMsg, h]
  · by_cases ht : msg.type = .response
    · simp [getApproveFromMsg, ht, h]
    · simp [getApproveFromMsg, ht]

/-- C6: for a message that is not a response or whose payload fails to
decode, `getApproveFromMsg` reports no approve signal, and consequently
a decode failure never drives arranging or delivering into the
immediate-disapproval exit, nor abandoning into its disapproval
short-circuit. -/
theorem decode_failure_no_disapproval (msg : Msg)
    (h : msg.type ≠ .response ∨ msg.decodeResponse = none) :
    getApproveFromMsg msg = (false, false) ∧
    (∀ mr m, m.msg = msg → isSkipProposal m = false →
      arranging_ExecuteInbound mr m ≠ ⟨some .abandoning, none, []⟩) ∧
    (∀ mr m, m.msg = msg → isSkipProposal m = false → m.invitation.isSome →
      delivering_ExecuteInbound mr m ≠ ⟨some .abandoning, none, []⟩) ∧
    (∀ mr m, m.msg = msg → msg.type = .response → m.waitCount = 1 →
      abandoning_ExecuteInbound mr m ≠ ⟨some .done, none, []⟩) := by
  have ha := getApprove_not_present msg h
  refine ⟨ha, ?_, ?_, ?_⟩
  · intro mr m hm hskip
    have ha' : getApproveFromMsg m.msg = (false, false) := by rw [hm]; exact ha
    simp only [arranging_ExecuteInbound, ha', isSkipProposal] at *
    simp only [hskip, Bool.and_false, if_false, Bool.false_and, not_true,
      Bool.not_false]
    rcases hget : m.recipients.get? (if m.waitCount = initialWaitCount then 0 else 1) with _ | recipient
    · simp [hget]
    · by_cases hs : mr.sendOk (.send (.proposalMsg recipient.dest m.threadID)
          recipient.myDID recipient.theirDID) = true
      · simp [hget, hs]
      · simp [hget, hs]
  · intro mr m hm hskip hinv
    have ha' : getApproveFromMsg m.msg = (false, false) := by rw [hm]; exact ha
    rcases hi : m.invitation with _ | inv
    · rw [hi] at hinv; simp at hinv
    · simp only [delivering_ExecuteInbound, ha', isSkipProposal] at *
      simp only [hskip, hi, Bool.and_false, if_false]
      rcases hget : m.recipients.get? (toDestIDx m.introduceeIndex) with _ | recipient
      · simp [hget]
      · by_cases hs : mr.sendOk (.replyToNested m.threadID (.invitationMsg inv)
            recipient.myDID recipient.theirDID) = true
        · simp [hget, hs]
        · simp [hget, hs]
  · intro mr m hm htype hw
    have ha' : getApproveFromMsg m.msg = (false, false) := by rw [hm]; exact ha
    have htm : m.msg.type = .response := by rw [hm]; exact htype
    have hres : abandoning_ExecuteInbound mr m =
        sendProblemReport mr m (fillRecipient m.recipients m) := by
      simp [abandoning_ExecuteInbound, htm, ha']
    rw [hres]
    intro heq
    have hg := congrArg ExecResult.goError heq
    have hsent := congrArg ExecResult.sent heq
    simp only [] at hg hsent
    have hlen := sendProblemReport_sent_length mr m _ hg
    rw [hsent] at hlen
    have hnil : fillRecipient m.recipients m = [] :=
      List.length_eq_zero.mp hlen.symm
    exact fillRecipient_ne_nil m.recipients m hnil

/-- Witness for C6 at a concrete request-typed message. -/
theorem decode_failure_no_disapproval_witness :
    getApproveFromMsg { type := .request, id := "m5" } = (false, false) :=
  (decode_failure_no_disapproval _ (Or.inl (by decide))).1

/-- C5: `saveConnectionRecord` always attempts to save the record; when
the record save succeeds it resolves and persists the peer DID (from the
record's recipient keys) exactly when the record's state is completed;
and a failure of either the record save or the resolution is surfaced as
the returned error, never swallowed. -/
theorem saveConnectionRecord_spec (c : ConnStore) (record : ConnRecord) :
    (saveConnectionRecord c record).recordSaveAttempts = [record] ∧
    (c.saveConnectionRecordErr record = none →
      (saveConnectionRecord c record).didResolutions =
        (if record.connState = stateNameCompleted
         then [(record.theirDID, record.recipientKeys)] else [])) ∧
    (c.saveConnectionRecordErr record ≠ none →
      (saveConnectionRecord c record).goError ≠ none ∧
      (saveConnectionRecord c record).didResolutions = []) ∧
    ((saveConnectionRecord c record).goError = none ↔
      (c.saveConnectionRecordErr record = none ∧
        (record.connState = stateNameCompleted →
          c.saveDIDByResolvingErr record.theirDID record.recipientKeys = none))) := by
  rcases hs : c.saveConnectionRecordErr record with _ | e
  · by_cases hc : record.connState = stateNameCompleted
    · rcases hd : c.saveDIDByResolvingErr record.theirDID record.recipientKeys with _ | e2
      · simp [saveConnectionRecord, hs, hc, hd]
      · simp [saveConnectionRecord, hs, hc, hd]
    · simp [saveConnectionRecord, hs, hc]
  · simp [saveConnectionRecord, hs]

/-- Witness for C5: a completed record against an error-free store
resolves the peer DID from the record's recipient keys. -/
theorem saveConnectionRecord_spec_witness :
    (saveConnectionRecord
      ⟨fun _ => none, fun _ => none, fun _ _ => none⟩
      { connState := "completed", myDID := "did:w:my",
        theirDID := "did:w:their", recipientKeys := ["k1"] }).didResolutions =
      [("did:w:their", ["k1"])] := by
  have h := (saveConnectionRecord_spec
    ⟨fun _ => none, fun _ => none, fun _ _ => none⟩
    { connState := "completed", myDID := "did:w:my",
      theirDID := "did:w:their", recipientKeys := ["k1"] }).2.1 rfl
  simpa using h

/-- C9: `saveConnectionRecordWithMapping` performs at most one DID-store
write, the resolution of the record's own DID with no keys; it does so
exactly when the mappings save succeeds and the own DID is non-empty,
and it never resolves the peer DID, regardless of the record's state. -/
theorem saveConnectionRecordWithMapping_spec (c : ConnStore) (record : ConnRecord) :
    ((saveConnectionRecordWithMapping c record).didResolutions = [] ∨
      (saveConnectionRecordWithMapping c record).didResolutions =
        [(record.myDID, [])]) ∧
    ((saveConnectionRecordWithMapping c record).didResolutions ≠ [] ↔
      (c.saveWithMappingsErr record = none ∧ record.myDID ≠ "")) ∧
    (∀ p ∈ (saveConnectionRecordWithMapping c record).didResolutions,
      p.1 = record.myDID ∧ p.2 = ([] : List String)) := by
  rcases hs : c.saveWithMappingsErr record with _ | e
  · by_cases hm : record.myDID = ""
    · simp [saveConnectionRecordWithMapping, hs, hm]
    · rcases hd : c.saveDIDByResolvingErr record.myDID [] with _ | e2
      · simp [saveConnectionRecordWithMapping, hs, hm, hd]
      · simp [saveConnectionRecordWithMapping, hs, hm, hd]
  · simp [saveConnectionRecordWithMapping, hs]

/-- Witness for C9: a completed record with a non-empty own DID yields
exactly the own-DID resolution. -/
theorem saveConnectionRecordWithMapping_spec_witness :
    (saveConnectionRecordWithMapping
      ⟨fun _ => some "unused", fun _ => none, fun _ _ => none⟩
      { connState := "completed", myDID := "did:w2:my",
        theirDID := "did:w2:their", recipientKeys := ["k2"] }).didResolutions =
      [("did:w2:my", [])] := by
  rcases (saveConnectionRecordWithMapping_spec
      ⟨fun _ => some "unused", fun _ => none, fun _ _ => none⟩
      { connState := "completed", myDID := "did:w2:my",
        theirDID := "did:w2:their", recipientKeys := ["k2"] }).1 with hres | hres
  · exact absurd hres
      ((saveConnectionRecordWithMapping_spec _ _).2.1.mpr ⟨rfl, by decide⟩)
  · exact hres

/-- An erroring `arranging.ExecuteInbound` has sent nothing. -/
lemma arranging_inbound_error_no_send (mr : Messenger) (m : MetaData) :
    (arranging_ExecuteInbound mr m).goError.isSome →
    (arranging_ExecuteInbound mr m).sent = [] := by
  unfold arranging_ExecuteInbound
  dsimp only
  split
  · simp
  · split
    · simp
    · split
      · simp
      · split <;> simp

/-- An erroring `deliveringSkipInvitation` has sent nothing. -/
lemma deliveringSkipInvitation_error_no_send (mr : Messenger) (m : MetaData)
    (recipients : List Recipient) :
    (deliveringSkipInvitation mr m recipients).goError.isSome →
    (deliveringSkipInvitation mr m recipients).sent = [] := by
  unfold deliveringSkipInvitation
  split
  · simp
  · split
    · simp
    · dsimp only
      split <;> simp

/-- An erroring `delivering.ExecuteInbound` has sent nothing. -/
lemma delivering_inbound_error_no_send (mr : Messenger) (m : MetaData) :
    (delivering_ExecuteInbound mr m).goError.isSome →
    (delivering_ExecuteInbound mr m).sent = [] := by
  unfold delivering_ExecuteInbound
  dsimp only
  split
  · simp
  · split
    · exact deliveringSkipInvitation_error_no_send mr m m.recipients
    · split
      · simp
      · split
        · simp
        · split <;> simp

/-- An erroring `confirming.ExecuteInbound` has sent nothing. -/
lemma confirming_inbound_error_no_send (mr : Messenger) (m : MetaData) :
    (confirming_ExecuteInbound mr m).goError.isSome →
    (confirming_ExecuteInbound mr m).sent = [] := by
  unfold confirming_ExecuteInbound
  split
  · simp
  · dsimp only
    split <;> simp

/-- An erroring `deciding.ExecuteInbound` has sent nothing. -/
lemma deciding_inbound_error_no_send (mr : Messenger) (m : MetaData) :
    (deciding_ExecuteInbound mr m).goError.isSome →
    (deciding_ExecuteInbound mr m).sent = [] := by
  unfold deciding_ExecuteInbound
  dsimp only
  split <;> simp

/-- An erroring `arranging.ExecuteOutbound` has sent nothing. -/
lemma arranging_outbound_error_no_send (mr : Messenger) (m : MetaData) :
    (arranging_ExecuteOutbound mr m).goError.isSome →
    (arranging_ExecuteOutbound mr m).sent = [] := by
  unfold arranging_ExecuteOutbound
  dsimp only
  split <;> simp

/-- An erroring `requesting.ExecuteOutbound` has sent nothing. -/
lemma requesting_outbound_error_no_send (mr : Messenger) (m : MetaData) :
    (requesting_ExecuteOutbound mr m).goError.isSome →
    (requesting_ExecuteOutbound mr m).sent = [] := by
  unfold requesting_ExecuteOutbound
  dsimp only
  split <;> simp

/-- C2 (amended): for every state other than abandoning, an execute
operation that returns an error has sent no message at all; the same
holds for every outbound execute including abandoning's. Only
abandoning's inbound problem-report fan-out can send to a first
recipient and then fail on a later one. -/
theorem execute_error_no_partial_send (s : StateName) (mr : Messenger)
    (m : MetaData) :
    (s ≠ .abandoning → (executeInbound s mr m).goError.isSome →
      (executeInbound s mr m).sent = []) ∧
    ((executeOutbound s mr m).goError.isSome →
      (executeOutbound s mr m).sent = []) := by
  constructor
  · intro hne
    cases s
    case abandoning => exact absurd rfl hne
    case noOp => intro _; rfl
    case start => intro _; rfl
    case done => intro _; rfl
    case arranging => exact arranging_inbound_error_no_send mr m
    case delivering => exact delivering_inbound_error_no_send mr m
    case confirming => exact confirming_inbound_error_no_send mr m
    case deciding => exact deciding_inbound_error_no_send mr m
    case waiting => intro _; rfl
    case requesting => intro _; rfl
  · cases s
    case arranging => exact arranging_outbound_error_no_send mr m
    case requesting => exact requesting_outbound_error_no_send mr m
    all_goals intro _; rfl

/-- Witness for the amended C2 at the noOp state's failing inbound
execute. -/
theorem execute_error_no_partial_send_witness :
    (executeInbound .noOp ⟨fun _ => true⟩
      { msg := { type := .request, id := "w2" }, threadID := "tw",
        myDID := "a", theirDID := "b", waitCount := 2 }).sent = [] :=
  (execute_error_no_partial_send .noOp ⟨fun _ => true⟩
    { msg := { type := .request, id := "w2" }, threadID := "tw",
      myDID := "a", theirDID := "b", waitCount := 2 }).1
    (by decide) (by decide)

/-- Counterexample to C2 as stated: with two fully hydrated recipients
and a messenger that accepts the first nested reply but rejects the
second, `abandoning.ExecuteInbound` on a well-typed approving response
returns an error after having already sent one problem report. -/
theorem abandoning_partial_send_counterexample :
    ((abandoning_ExecuteInbound
        ⟨fun op => match op with
          | .replyToNested _ _ my _ => my = "did:a:0"
          | _ => true⟩
        { msg := { type := .response, id := "c2",
                   decodeResponse := some { approve := true } },
          threadID := "tc2", myDID := "dm", theirDID := "dt",
          recipients := [{ myDID := "did:a:0", theirDID := "p0" },
                         { myDID := "did:a:1", theirDID := "p1" }],
          waitCount := 2 }).goError.isSome = true) ∧
    ((abandoning_ExecuteInbound
        ⟨fun op => match op with
          | .replyToNested _ _ my _ => my = "did:a:0"
          | _ => true⟩
        { msg := { type := .response, id := "c2",
                   decodeResponse := some { approve := true } },
          threadID := "tc2", myDID := "dm", theirDID := "dt",
          recipients := [{ myDID := "did:a:0", theirDID := "p0" },
                         { myDID := "did:a:1", theirDID := "p1" }],
          waitCount := 2 }).sent =
      [.replyToNested "tc2" .problemReportMsg "did:a:0" "p0"]) := by
  decide
